import Mathlib

/-!
Verification development for the last-draw multi-pass shader execution and
texture-commit engine.

The JavaScript sources are shallowly embedded as follows.

* Pixel coordinates and all shader arithmetic are over `ℚ` (the source uses
  JS doubles / GPU floats; rational arithmetic is the exact idealisation).
  The square-root routine `Math.sqrt` / GLSL `sqrt`, the only
  non-rational operation the modelled code uses, is threaded through as an
  explicit parameter `sqrtF : ℚ → ℚ`.
* A texture is a handle (`Nat`); the WebGL texture memory is a store
  `Nat → α` where `α` is the image payload type (kept abstract in the
  engine, instantiated with `ℤ` for concrete evaluations and with
  `QImage` for the shader-level claims).  Swapping two JS texture
  references is swapping two handles, never copying payloads, exactly as
  in the source.
* The bound framebuffer is `Option Nat`: `none` is the default
  framebuffer (the canvas / screen), `some t` is the off-screen
  framebuffer with texture `t` as its colour attachment.
* Every `drawArrays` call is a `runProgram` step: it reads the image of
  the input texture, applies the fragment program, and writes the result
  to the bound destination.  Texture sampling at `uv` is modelled as the
  exact lookup at the pixel `uv * resolution` (filtering at texel centres
  is the identity).  Each draw also appends `(input, destination)` to an
  observer `trace` so that read/write aliasing can be stated.
-/

namespace LastDraw

/-- A point in pixel space, origin lower left, as in the source. -/
abbrev Point := ℚ × ℚ

/-- Squared Euclidean distance, mirroring squaredDistance of
tool-controller.js (dx*dx + dy*dy). -/
def sqDist (a b : Point) : ℚ :=
  (a.1 - b.1) * (a.1 - b.1) + (a.2 - b.2) * (a.2 - b.2)

/-- Mirrors distanceToLine2 of tool-controller.js line 126: squared
distance from p to the closest point on the (infinite) line through a and
b; when a = b it degenerates to the squared distance to a. -/
def distanceToLine2 (p a b : Point) : ℚ :=
  let ab : Point := (b.1 - a.1, b.2 - a.2)
  let ap : Point := (p.1 - a.1, p.2 - a.2)
  let ab2 : ℚ := ab.1 * ab.1 + ab.2 * ab.2
  if ab2 = 0 then sqDist p a
  else
    let t : ℚ := (ap.1 * ab.1 + ap.2 * ab.2) / ab2
    let closestPoint : Point := (a.1 + t * ab.1, a.2 + t * ab.2)
    sqDist p closestPoint

/-- The uniform block set by updateToolPoints for every program of the
active tool (tool-controller.js lines 170-183). -/
structure Uniforms where
  resolution : Point
  start : Point
  endPt : Point
  mid : Point
  isDragging : ℚ
  dragLength : ℚ

/-- WebGL state visible to the model: texture memory, the canvas, the
bound framebuffer attachment, and an observer trace of the draw calls
issued, each recorded as (input texture, destination). -/
structure GlState (α : Type) where
  store : Nat → α
  screen : α
  boundFB : Option Nat
  trace : List (Nat × Option Nat)

/-- Mirrors gl.bindFramebuffer(gl.FRAMEBUFFER, null). -/
def bindScreen (gl : GlState α) : GlState α :=
  { gl with boundFB := none }

/-- Mirrors gl.bindFramebuffer(gl.FRAMEBUFFER, this.framebuffer) followed
by gl.framebufferTexture2D(..., t, 0): the single FBO is bound with t as
its colour attachment. -/
def bindFBTexture (t : Nat) (gl : GlState α) : GlState α :=
  { gl with boundFB := some t }

/-- Mirrors runProgram(program, locations, currentSource) of
tool-controller.js lines 236-246: bind currentSource as the input
sampler and draw a full-screen quad into the bound destination. -/
def runProgram (prog : α → α) (src : Nat) (gl : GlState α) : GlState α :=
  match gl.boundFB with
  | none => { gl with
      screen := prog (gl.store src)
      trace := gl.trace ++ [(src, none)] }
  | some d => { gl with
      store := Function.update gl.store d (prog (gl.store src))
      trace := gl.trace ++ [(src, some d)] }

/-- The ToolController state (tool-controller.js): texture slots, gesture
state, dirty/commit flags, the active tool (its list of fragment
programs, each a function of the uniform block), and the uniform values
currently bound to those programs. -/
structure Ctrl (α : Type) where
  canvasW : ℚ
  canvasH : ℚ
  sourceTexture : Nat
  targetTextureA : Nat
  targetTextureB : Nat
  sourceLoaded : Bool
  gl : GlState α
  startPoint : Point
  endPoint : Point
  midPoints : List Point
  isDragging : Bool
  isDirty : Bool
  needsCommit : Bool
  activeTool : Option (List (Uniforms → α → α))
  boundUniforms : Uniforms

/-- One step of the farthest-midpoint scan of updateToolPoints
(tool-controller.js lines 161-168): strict improvement only. -/
def farthestStep (s e : Point) (acc : Point × ℚ) (p : Point) : Point × ℚ :=
  if acc.2 < distanceToLine2 p s e then (p, distanceToLine2 p s e) else acc

/-- The scan over the midpoint list, starting from the candidate start
with maxDistance = 0, as in the source. -/
def farthestScan (s e : Point) (l : List Point) : Point × ℚ :=
  l.foldl (farthestStep s e) (s, 0)

/-- The mid point chosen by updateToolPoints: the source first pushes the
start point when the midpoint list is empty, then scans the list. -/
def selectMid (s e : Point) (mids : List Point) : Point :=
  (farthestScan s e (if mids.isEmpty then [s] else mids)).1

/-- Mirrors updateToolPoints (tool-controller.js lines 145-184): early
return without an active tool; otherwise push the start point into the
(empty) midpoint list, select the farthest mid point, and bind the
uniform block for all programs of the active tool. -/
def updateToolPoints (sqrtF : ℚ → ℚ) (c : Ctrl α) : Ctrl α :=
  match c.activeTool with
  | none => c
  | some _ =>
    let dragLength : ℚ := sqrtF (sqDist c.endPoint c.startPoint)
    let mids : List Point := if c.midPoints.isEmpty then [c.startPoint] else c.midPoints
    let midPoint : Point := selectMid c.startPoint c.endPoint c.midPoints
    { c with
      midPoints := mids
      boundUniforms :=
        { resolution := (c.canvasW, c.canvasH)
          start := c.startPoint
          endPt := c.endPoint
          mid := midPoint
          isDragging := if c.isDragging then 1 else 0
          dragLength := dragLength } }

/-- Mirrors runSingleShaderPass (tool-controller.js lines 274-291).
Preview renders source to the screen; commit renders source into
targetTextureA and then swaps targetTextureA with sourceTexture. -/
def runSingleShaderPass (p : Uniforms → α → α) (commitTexture : Bool) (c : Ctrl α) : Ctrl α :=
  if !commitTexture then
    { c with gl := runProgram (p c.boundUniforms) c.sourceTexture (bindScreen c.gl) }
  else
    let gl2 := runProgram (p c.boundUniforms) c.sourceTexture (bindFBTexture c.targetTextureA c.gl)
    { c with
      gl := gl2
      targetTextureA := c.sourceTexture
      sourceTexture := c.targetTextureA }

/-- Mirrors runTwoShaderPasses (tool-controller.js lines 248-272).
Pass 1 renders source into targetTextureA; pass 2 renders targetTextureA
to the screen (preview) or into targetTextureB followed by a swap of
targetTextureB with sourceTexture (commit). -/
def runTwoShaderPasses (p0 p1 : Uniforms → α → α) (commitTexture : Bool) (c : Ctrl α) : Ctrl α :=
  let gl2 := runProgram (p0 c.boundUniforms) c.sourceTexture (bindFBTexture c.targetTextureA c.gl)
  if !commitTexture then
    { c with gl := runProgram (p1 c.boundUniforms) c.targetTextureA (bindScreen gl2) }
  else
    let gl4 := runProgram (p1 c.boundUniforms) c.targetTextureA (bindFBTexture c.targetTextureB gl2)
    { c with
      gl := gl4
      sourceTexture := c.targetTextureB
      targetTextureB := c.sourceTexture }

/-- The loop body of runMultipleShaderPasses (tool-controller.js lines
293-317).  Every pass except the last binds targetTextureA as the
destination; the last pass binds the screen (preview) or targetTextureA
(commit).  After every pass currentSource becomes the texture just
written and targetTextureA / targetTextureB swap.  Note that, as in the
source, the loop never writes sourceTexture and performs no final swap
into the source slot. -/
def runMultiAux (u : Uniforms) (commitTexture : Bool) :
    List (Uniforms → α → α) → Nat → Ctrl α → Ctrl α
  | [], _, c => c
  | p :: rest, currentSource, c =>
    let gl1 :=
      if rest.isEmpty then
        if !commitTexture then bindScreen c.gl else bindFBTexture c.targetTextureA c.gl
      else bindFBTexture c.targetTextureA c.gl
    let gl2 := runProgram (p u) currentSource gl1
    runMultiAux u commitTexture rest c.targetTextureA
      { c with
        gl := gl2
        targetTextureA := c.targetTextureB
        targetTextureB := c.targetTextureA }

/-- Mirrors runMultipleShaderPasses (tool-controller.js lines 293-317):
the ping-pong loop started with currentSource = sourceTexture. -/
def runMultipleShaderPasses (commitTexture : Bool) (c : Ctrl α) : Ctrl α :=
  match c.activeTool with
  | none => c
  | some progs => runMultiAux c.boundUniforms commitTexture progs c.sourceTexture c

/-- Mirrors runShaderPasses (tool-controller.js lines 319-328): dispatch
on the number of programs of the active tool (1 / 2 / more). -/
def runShaderPasses (commitTexture : Bool) (c : Ctrl α) : Ctrl α :=
  match c.activeTool with
  | none => c
  | some progs =>
    match progs with
    | [p] => runSingleShaderPass p commitTexture c
    | [p0, p1] => runTwoShaderPasses p0 p1 commitTexture c
    | _ => runMultipleShaderPasses commitTexture c

/-- Mirrors render (tool-controller.js lines 330-360): early return
unless dirty with an active tool and a source texture; the idle fast
path blits sourceTexture to the screen via the passthrough program when
start and end are the zero sentinel and no commit is pending; otherwise
the uniforms are bound and the pass chain runs with commit =
needsCommit; finally a pending commit resets the gesture to the zero
sentinel and re-arms the dirty flag for one more frame. -/
def render (sqrtF : ℚ → ℚ) (c : Ctrl α) : Ctrl α :=
  if c.isDirty = false ∨ c.activeTool.isNone = true ∨ c.sourceLoaded = false then c
  else
    let c1 := { c with isDirty := false }
    let c2 :=
      if c1.startPoint = ((0 : ℚ), (0 : ℚ)) ∧ c1.endPoint = ((0 : ℚ), (0 : ℚ)) ∧
          c1.needsCommit = false then
        { c1 with gl := runProgram (fun x => x) c1.sourceTexture (bindScreen c1.gl) }
      else
        runShaderPasses c1.needsCommit (updateToolPoints sqrtF c1)
    if c2.needsCommit = true then
      { c2 with
        startPoint := ((0 : ℚ), (0 : ℚ))
        endPoint := ((0 : ℚ), (0 : ℚ))
        needsCommit := false
        isDirty := true }
    else c2

/-- Mirrors onDragStart (tool-controller.js lines 207-217), with the
event already converted to a canvas point. -/
def onDragStart (p : Point) (c : Ctrl α) : Ctrl α :=
  if c.activeTool.isNone = true then c
  else
    { c with
      isDragging := true
      startPoint := p
      endPoint := p
      midPoints := []
      needsCommit := false
      isDirty := true }

/-- Mirrors onDragMove (tool-controller.js lines 220-227). -/
def onDragMove (p : Point) (c : Ctrl α) : Ctrl α :=
  if c.activeTool.isNone = true ∨ c.isDragging = false then c
  else
    { c with
      midPoints := c.midPoints ++ [c.endPoint]
      endPoint := p
      isDirty := true }

/-- Mirrors onDragEnd (tool-controller.js lines 229-234). -/
def onDragEnd (c : Ctrl α) : Ctrl α :=
  if c.activeTool.isNone = true ∨ c.isDragging = false then c
  else
    { c with
      isDragging := false
      isDirty := true
      needsCommit := true }

/-- The canvas events the controller listens to (tool-controller.js
lines 194-204), with pointer events already converted to points. -/
inductive CanvasEvent where
  | mousedown (p : Point)
  | mousemove (p : Point)
  | mouseup
  | mouseleave
  | touchstart (p : Point)
  | touchmove (p : Point)
  | touchend
  | touchcancel

/-- The listener table installed by initialize (tool-controller.js lines
194-204): mouseleave and touchcancel are wired to the same onDragEnd
handler as mouseup and touchend. -/
def handleEvent (ev : CanvasEvent) (c : Ctrl α) : Ctrl α :=
  match ev with
  | .mousedown p => onDragStart p c
  | .mousemove p => onDragMove p c
  | .mouseup => onDragEnd c
  | .mouseleave => onDragEnd c
  | .touchstart p => onDragStart p c
  | .touchmove p => onDragMove p c
  | .touchend => onDragEnd c
  | .touchcancel => onDragEnd c

/-! Legacy TwoPointTool variant (src/unnamed/part_004, lines 536-567):
one scratch texture only, with local currentSource / currentDest
variables that swap after every pass; the last pass binds the explicit
finalDestinationTexture argument (or the screen when it is null). -/

/-- State of the legacy TwoPointTool of part_004: a source texture, one
scratch targetTexture, and the shared WebGL state. -/
structure LegacyCtrl (α : Type) where
  sourceTexture : Nat
  targetTexture : Nat
  gl : GlState α

/-- The loop of the legacy runShaderPasses (part_004 lines 536-567):
intermediate passes bind currentDest; the last pass binds
finalDestinationTexture when present and the screen otherwise; after
every pass currentSource and currentDest swap. -/
def legacyRunAux (u : Uniforms) (finalDest : Option Nat) :
    List (Uniforms → α → α) → Nat → Nat → LegacyCtrl α → LegacyCtrl α
  | [], _, _, lc => lc
  | p :: rest, currentSource, currentDest, lc =>
    let gl1 :=
      if rest.isEmpty then
        match finalDest with
        | some t => bindFBTexture t lc.gl
        | none => bindScreen lc.gl
      else bindFBTexture currentDest lc.gl
    let gl2 := runProgram (p u) currentSource gl1
    legacyRunAux u finalDest rest currentDest currentSource { lc with gl := gl2 }

/-- Mirrors the legacy runShaderPasses (part_004 lines 536-567), started
with currentSource = initialSourceTexture and currentDest =
this.targetTexture. -/
def legacyRunShaderPasses (u : Uniforms) (progs : List (Uniforms → α → α))
    (initialSource : Nat) (finalDest : Option Nat) (lc : LegacyCtrl α) : LegacyCtrl α :=
  legacyRunAux u finalDest progs initialSource lc.targetTexture lc

/-! The line tool fragment shader (src/line-gl.js), embedded over ℚ with
the GPU square root threaded as sqrtF. -/

/-- An RGBA colour. -/
abbrev Color := ℚ × ℚ × ℚ × ℚ

/-- An image: a colour for every fragment coordinate. -/
abbrev QImage := Point → Color

/-- Texture sampling, idealised: sampling at uv returns the image at the
pixel coordinate uv * resolution. -/
def texSample (img : QImage) (res : Point) (uv : Point) : Color :=
  img (uv.1 * res.1, uv.2 * res.2)

/-- GLSL clamp(x, lo, hi) = min(max(x, lo), hi). -/
def clampQ (x lo hi : ℚ) : ℚ := min (max x lo) hi

/-- GLSL smoothstep(e0, e1, x). -/
def smoothstepQ (e0 e1 x : ℚ) : ℚ :=
  let t := clampQ ((x - e0) / (e1 - e0)) 0 1
  t * t * (3 - 2 * t)

/-- GLSL mix on scalars. -/
def mixQ (x y a : ℚ) : ℚ := x * (1 - a) + y * a

/-- GLSL mix on vec4. -/
def mix4 (x y : Color) (a : ℚ) : Color :=
  (mixQ x.1 y.1 a, mixQ x.2.1 y.2.1 a, mixQ x.2.2.1 y.2.2.1 a, mixQ x.2.2.2 y.2.2.2 a)

/-- GLSL projectToLine of line-gl.js lines 21-33: project p onto the
segment from a to b, clamping to the segment. -/
def projectToLine (p a b : Point) : Point :=
  let ap : Point := (p.1 - a.1, p.2 - a.2)
  let ab : Point := (b.1 - a.1, b.2 - a.2)
  let ab2 : ℚ := ab.1 * ab.1 + ab.2 * ab.2
  if ab2 = 0 then a
  else
    let t : ℚ := clampQ ((ap.1 * ab.1 + ap.2 * ab.2) / ab2) 0 1
    (a.1 + ab.1 * t, a.2 + ab.2 * t)

/-- The main function of the line tool fragment shader (line-gl.js lines
35-52).  GLSL distance(a, b) is sqrtF (sqDist a b).  Below the one-pixel
drag threshold the shader returns the sampled texture unchanged;
otherwise it blends a black line of width 3 with blend size 1 over the
texture. -/
def lineToolShader (sqrtF : ℚ → ℚ) (u : Uniforms) (img : QImage) : QImage := fun p =>
  let uv : Point := (p.1 / u.resolution.1, p.2 / u.resolution.2)
  if sqrtF (sqDist u.start u.endPt) < 1 then texSample img u.resolution uv
  else
    let closestPointOnLine := projectToLine p u.start u.endPt
    let distFromLine := sqrtF (sqDist p closestPointOnLine)
    let lineWidth : ℚ := 3
    let blendSize : ℚ := 1
    let alpha := 1 - smoothstepQ (lineWidth - blendSize) (lineWidth + blendSize) distFromLine
    mix4 (texSample img u.resolution uv) (0, 0, 0, 1) alpha

/-- Mirrors createLineTool (line-gl.js): a single-pass tool running the
line shader. -/
def createLineTool (sqrtF : ℚ → ℚ) : List (Uniforms → QImage → QImage) :=
  [lineToolShader sqrtF]

/-! Shader and program construction (ShaderTool.createShaders of
src/unnamed/part_004 lines 663-705, and the older createShaders of
src/smudge-gl.js lines 54-166 whose link-failure branch returns null).
The GL compile and link outcomes are inputs of the model. -/

/-- The compile and link outcomes the GL driver reports: whether the
vertex shader compiles, and whether the i-th fragment shader compiles
and its program links. -/
structure GlCompileEnv where
  vertexOk : Bool
  fragOk : Nat → Bool
  linkOk : Nat → Bool

/-- Mirrors createShader: compileShader followed by the COMPILE_STATUS
check, throwing on failure. -/
def compileShader (ok : Bool) : Except String Unit :=
  if ok then .ok () else .error "Shader compilation failed"

/-- The map over fragmentShaderSources in ShaderTool.createShaders
(part_004 lines 675-704): compile each fragment shader, link its
program, and throw on the first failure; programs are represented by
their index, and a thrown error propagates out of the whole map. -/
def createProgramsAux (env : GlCompileEnv) : Nat → List σ → Except String (List Nat)
  | _, [] => .ok []
  | i, _ :: rest =>
    match compileShader (env.fragOk i) with
    | .error msg => .error msg
    | .ok _ =>
      if env.linkOk i then
        match createProgramsAux env (i + 1) rest with
        | .error msg => .error msg
        | .ok programs => .ok (i :: programs)
      else .error "Program linking failed"

/-- Mirrors ShaderTool.createShaders (part_004 lines 663-705), which the
ShaderTool constructor calls: reject an empty source list, compile the
vertex shader, then build every program. -/
def shaderToolCreate (env : GlCompileEnv) (srcs : List σ) : Except String (List Nat) :=
  if srcs.isEmpty then .error "At least one fragment shader source must be provided."
  else
    match compileShader env.vertexOk with
    | .error msg => .error msg
    | .ok _ => createProgramsAux env 0 srcs

/-- Mirrors createShaders of smudge-gl.js: compile both shaders
(throwing on failure), but on a link failure log and return null
instead of throwing. -/
def smudgeCreateShaders (env : GlCompileEnv) : Except String (Option Unit) :=
  match compileShader env.vertexOk with
  | .error msg => .error msg
  | .ok _ =>
    match compileShader (env.fragOk 0) with
    | .error msg => .error msg
    | .ok _ => if env.linkOk 0 then .ok (some ()) else .ok none

/-- Mirrors the SmudgeTool construction of smudge-gl.js: the constructor
calls initialize, which calls createShaders and then
updateSmudgePoints; updateSmudgePoints throws when the locations were
never set because createShaders returned null after a link failure. -/
def smudgeToolNew (env : GlCompileEnv) : Except String Unit :=
  match smudgeCreateShaders env with
  | .error msg => .error msg
  | .ok (some _) => .ok ()
  | .ok none => .error "Locations not initialized"

/-! The GeminiChat collaborator (src/script.js lines 118-188). -/

/-- One part of a chat message: text or an inline image payload. -/
inductive ChatPart where
  | text (s : String)
  | inlineData (img : Nat)
deriving DecidableEq

/-- One turn of the conversation history. -/
structure ChatTurn where
  role : String
  parts : List ChatPart
deriving DecidableEq

/-- The outcome of the single fetch to the AI service: the promise
rejects, the response is not ok, or a reply text arrives. -/
inductive NetOutcome where
  | reject
  | notOk (status : Nat)
  | ok (reply : String)

/-- The local state sendMessage touches: the append-only history, the
pending image attachment set by setImage, the chat UI transcript, and
the editor image (owned by the render engine, never touched by
sendMessage). -/
structure ChatState where
  history : List ChatTurn
  pendingImage : Option Nat
  ui : List (String × String)
  editorImage : Nat
deriving DecidableEq

/-- The user parts built by sendMessage: the prompt text, preceded by the
inline image payload when one is pending. -/
def userPartsFor (pending : Option Nat) (prompt : String) : List ChatPart :=
  match pending with
  | some img => [.inlineData img, .text prompt]
  | none => [.text prompt]

/-- Mirrors GeminiChat.sendMessage (script.js lines 118-188): show the
user message, build the user parts (consuming any pending image), push
the user turn into the history, then fetch once; on success show and
push the model reply, on any failure catch and show the fallback
message.  The second component counts the fetch calls issued (the
source contains exactly one fetch and no retry loop). -/
def sendMessage (st : ChatState) (prompt : String) (net : NetOutcome) : ChatState × Nat :=
  let st1 := { st with ui := st.ui ++ [("user", prompt)] }
  let parts := userPartsFor st1.pendingImage prompt
  let st2 :=
    match st1.pendingImage with
    | some _ => { st1 with pendingImage := none }
    | none => st1
  let st3 := { st2 with history := st2.history ++ [ChatTurn.mk "user" parts] }
  match net with
  | .ok reply =>
    ({ st3 with
        ui := st3.ui ++ [("model", reply)]
        history := st3.history ++ [ChatTurn.mk "model" [.text reply]] }, 1)
  | _ =>
    ({ st3 with ui := st3.ui ++ [("model", "Sorry, I encountered an error.")] }, 1)

/-! Helper lemmas about the engine. -/

theorem runProgram_screen_store (prog : α → α) (src : Nat) (gl : GlState α) :
    (runProgram prog src (bindScreen gl)).store = gl.store := rfl

theorem runProgram_tex_store_ne (prog : α → α) (src t n : Nat) (gl : GlState α)
    (hn : n ≠ t) :
    (runProgram prog src (bindFBTexture t gl)).store n = gl.store n := by
  simp [runProgram, bindFBTexture, Function.update_noteq hn]

theorem runProgram_tex_store_eq (prog : α → α) (src t : Nat) (gl : GlState α) :
    (runProgram prog src (bindFBTexture t gl)).store t = prog (gl.store src) := by
  simp [runProgram, bindFBTexture]

theorem runMultiAux_sourceTexture (u : Uniforms) (commit : Bool) :
    ∀ (progs : List (Uniforms → α → α)) (cs : Nat) (c : Ctrl α),
      (runMultiAux u commit progs cs c).sourceTexture = c.sourceTexture := by
  intro progs
  induction progs with
  | nil => intro cs c; rfl
  | cons p rest ih =>
    intro cs c
    simp only [runMultiAux]
    rw [ih]

theorem runMultiAux_store (u : Uniforms) (commit : Bool) :
    ∀ (progs : List (Uniforms → α → α)) (cs : Nat) (c : Ctrl α) (n : Nat),
      n ≠ c.targetTextureA → n ≠ c.targetTextureB →
      (runMultiAux u commit progs cs c).gl.store n = c.gl.store n := by
  intro progs
  induction progs with
  | nil => intro cs c n _ _; rfl
  | cons p rest ih =>
    intro cs c n hA hB
    simp only [runMultiAux]
    rw [ih _ _ _ hB hA]
    split_ifs with h1 h2
    · rw [runProgram_screen_store]
    · exact runProgram_tex_store_ne _ _ _ _ _ hA
    · exact runProgram_tex_store_ne _ _ _ _ _ hA

/-- No recorded draw call reads the texture it writes. -/
def noSelfDraw (tr : List (Nat × Option Nat)) : Prop :=
  ∀ e ∈ tr, ∀ d : Nat, e.2 = some d → e.1 ≠ d

theorem noSelfDraw_append (tr : List (Nat × Option Nat)) (s : Nat) (o : Option Nat)
    (h : noSelfDraw tr) (hso : ∀ d : Nat, o = some d → s ≠ d) :
    noSelfDraw (tr ++ [(s, o)]) := by
  intro e he d hd
  rcases List.mem_append.mp he with h1 | h2
  · exact h e h1 d hd
  · have : e = (s, o) := by simpa using h2
    subst this
    exact hso d hd

theorem runMultiAux_noSelfDraw (u : Uniforms) (commit : Bool) :
    ∀ (progs : List (Uniforms → α → α)) (cs : Nat) (c : Ctrl α),
      cs ≠ c.targetTextureA → c.targetTextureA ≠ c.targetTextureB →
      noSelfDraw c.gl.trace →
      noSelfDraw (runMultiAux u commit progs cs c).gl.trace := by
  intro progs
  induction progs with
  | nil => intro cs c _ _ h; exact h
  | cons p rest ih =>
    intro cs c hcs hAB htr
    simp only [runMultiAux]
    apply ih
    · exact hAB
    · exact Ne.symm hAB
    · split_ifs with h1 h2
      · exact noSelfDraw_append _ _ _ htr (by intro d hd; cases hd)
      · exact noSelfDraw_append _ _ _ htr (by intro d hd; cases hd; exact hcs)
      · exact noSelfDraw_append _ _ _ htr (by intro d hd; cases hd; exact hcs)

theorem updateToolPoints_gl (sqrtF : ℚ → ℚ) (c : Ctrl α) :
    (updateToolPoints sqrtF c).gl = c.gl := by
  cases h : c.activeTool <;> simp [updateToolPoints, h]

theorem updateToolPoints_slots (sqrtF : ℚ → ℚ) (c : Ctrl α) :
    (updateToolPoints sqrtF c).sourceTexture = c.sourceTexture ∧
    (updateToolPoints sqrtF c).targetTextureA = c.targetTextureA ∧
    (updateToolPoints sqrtF c).targetTextureB = c.targetTextureB ∧
    (updateToolPoints sqrtF c).needsCommit = c.needsCommit ∧
    (updateToolPoints sqrtF c).activeTool = c.activeTool := by
  cases h : c.activeTool <;> simp [updateToolPoints, h]

theorem runShaderPasses_preview_source (c : Ctrl α)
    (hA : c.sourceTexture ≠ c.targetTextureA)
    (hB : c.sourceTexture ≠ c.targetTextureB) :
    (runShaderPasses false c).sourceTexture = c.sourceTexture ∧
    (runShaderPasses false c).gl.store c.sourceTexture = c.gl.store c.sourceTexture := by
  unfold runShaderPasses
  cases h : c.activeTool with
  | none => exact ⟨rfl, rfl⟩
  | some progs =>
    match progs with
    | [] =>
      simp only [runMultipleShaderPasses, h]
      exact ⟨rfl, rfl⟩
    | [p] =>
      exact ⟨rfl, rfl⟩
    | [p0, p1] =>
      constructor
      · rfl
      · simp only [runTwoShaderPasses, Bool.not_false, if_pos]
        rw [runProgram_screen_store]
        exact runProgram_tex_store_ne _ _ _ _ _ hA
    | p0 :: p1 :: p2 :: rest =>
      simp only [runMultipleShaderPasses, h]
      refine ⟨runMultiAux_sourceTexture _ _ _ _ _, ?_⟩
      exact runMultiAux_store _ _ _ _ _ _ hA hB

theorem runMultiAux_needsCommit (u : Uniforms) (commit : Bool) :
    ∀ (progs : List (Uniforms → α → α)) (cs : Nat) (c : Ctrl α),
      (runMultiAux u commit progs cs c).needsCommit = c.needsCommit := by
  intro progs
  induction progs with
  | nil => intro cs c; rfl
  | cons p rest ih =>
    intro cs c
    simp only [runMultiAux]
    rw [ih]

theorem runShaderPasses_needsCommit (commit : Bool) (c : Ctrl α) :
    (runShaderPasses commit c).needsCommit = c.needsCommit := by
  unfold runShaderPasses
  cases h : c.activeTool with
  | none => rfl
  | some progs =>
    match progs with
    | [] =>
      simp only [runMultipleShaderPasses, h]
      exact runMultiAux_needsCommit _ _ _ _ _
    | [p] =>
      unfold runSingleShaderPass
      split_ifs <;> rfl
    | [p0, p1] =>
      unfold runTwoShaderPasses
      split_ifs <;> rfl
    | p0 :: p1 :: p2 :: rest =>
      simp only [runMultipleShaderPasses, h]
      exact runMultiAux_needsCommit _ _ _ _ _

/-- The pass-chain part of a non-idle render frame: bind the uniforms,
then run the pass chain with commit = needsCommit (render, lines
349-352). -/
def renderPasses (sqrtF : ℚ → ℚ) (c : Ctrl α) : Ctrl α :=
  runShaderPasses c.needsCommit (updateToolPoints sqrtF ({ c with isDirty := false } : Ctrl α))

theorem render_eq_idle (sqrtF : ℚ → ℚ) (c : Ctrl α)
    (hg : ¬(c.isDirty = false ∨ c.activeTool.isNone = true ∨ c.sourceLoaded = false))
    (hidle : c.startPoint = ((0 : ℚ), (0 : ℚ)) ∧ c.endPoint = ((0 : ℚ), (0 : ℚ)) ∧
      c.needsCommit = false) :
    render sqrtF c =
      { c with
        isDirty := false
        gl := runProgram (fun x => x) c.sourceTexture (bindScreen c.gl) } := by
  rw [render, if_neg hg]
  dsimp only
  rw [if_pos hidle, if_neg (by simp [hidle.2.2])]

theorem render_eq_not_idle (sqrtF : ℚ → ℚ) (c : Ctrl α)
    (hg : ¬(c.isDirty = false ∨ c.activeTool.isNone = true ∨ c.sourceLoaded = false))
    (hni : ¬(c.startPoint = ((0 : ℚ), (0 : ℚ)) ∧ c.endPoint = ((0 : ℚ), (0 : ℚ)) ∧
      c.needsCommit = false)) :
    render sqrtF c =
      if (renderPasses sqrtF c).needsCommit = true then
        { renderPasses sqrtF c with
          startPoint := ((0 : ℚ), (0 : ℚ))
          endPoint := ((0 : ℚ), (0 : ℚ))
          needsCommit := false
          isDirty := true }
      else renderPasses sqrtF c := by
  rw [render, if_neg hg]
  dsimp only
  rw [if_neg hni]
  rfl

/-- Claim C2: for every tool (1-pass, 2-pass, and N>2-pass) and every
gesture state, running the pass chain with commit=false (preview) never
writes to the source texture: after a preview render the source slot is
unchanged and its contents are bit-identical to what they were before.
The hypotheses are the standing allocation invariant that the source
texture is a different texture object from the two scratch textures. -/
theorem c2_preview_preserves_source (sqrtF : ℚ → ℚ) (c : Ctrl α)
    (hCommit : c.needsCommit = false)
    (hA : c.sourceTexture ≠ c.targetTextureA)
    (hB : c.sourceTexture ≠ c.targetTextureB) :
    (render sqrtF c).sourceTexture = c.sourceTexture ∧
    (render sqrtF c).gl.store c.sourceTexture = c.gl.store c.sourceTexture := by
  by_cases hg : (c.isDirty = false ∨ c.activeTool.isNone = true ∨ c.sourceLoaded = false)
  · rw [render, if_pos hg]
    exact ⟨rfl, rfl⟩
  · by_cases hidle :
        (c.startPoint = ((0 : ℚ), (0 : ℚ)) ∧ c.endPoint = ((0 : ℚ), (0 : ℚ)) ∧
          c.needsCommit = false)
    · rw [render_eq_idle sqrtF c hg hidle]
      exact ⟨rfl, rfl⟩
    · rw [render_eq_not_idle sqrtF c hg hidle]
      have hslots := updateToolPoints_slots sqrtF ({ c with isDirty := false } : Ctrl α)
      have hgl := updateToolPoints_gl sqrtF ({ c with isDirty := false } : Ctrl α)
      have h2 := runShaderPasses_preview_source
        (updateToolPoints sqrtF ({ c with isDirty := false } : Ctrl α))
        (by rw [hslots.1, hslots.2.1]; exact hA)
        (by rw [hslots.1, hslots.2.2.1]; exact hB)
      have hrp : renderPasses sqrtF c =
          runShaderPasses false (updateToolPoints sqrtF ({ c with isDirty := false } : Ctrl α)) := by
        rw [renderPasses, hCommit]
      have hnc : (renderPasses sqrtF c).needsCommit = false := by
        rw [hrp, runShaderPasses_needsCommit]
        have : (updateToolPoints sqrtF ({ c with isDirty := false } : Ctrl α)).needsCommit
            = c.needsCommit := hslots.2.2.2.1
        rw [this, hCommit]
      rw [if_neg (by rw [hnc]; simp)]
      have hxs : (updateToolPoints sqrtF ({ c with isDirty := false } : Ctrl α)).sourceTexture
          = c.sourceTexture := hslots.1
      rw [hrp]
      constructor
      · rw [h2.1]
        exact hxs
      · calc (runShaderPasses false
              (updateToolPoints sqrtF ({ c with isDirty := false } : Ctrl α))).gl.store
                c.sourceTexture
            = (runShaderPasses false
                (updateToolPoints sqrtF ({ c with isDirty := false } : Ctrl α))).gl.store
                  (updateToolPoints sqrtF ({ c with isDirty := false } : Ctrl α)).sourceTexture := by
              rw [hxs]
          _ = (updateToolPoints sqrtF ({ c with isDirty := false } : Ctrl α)).gl.store
                (updateToolPoints sqrtF ({ c with isDirty := false } : Ctrl α)).sourceTexture :=
              h2.2
          _ = c.gl.store c.sourceTexture := by rw [hgl, hxs]

/-- Concrete controller used to evaluate claim C2: a 3-pass tool in
mid-preview over the integer one-pixel image model. -/
def cMulti : Ctrl ℤ :=
  { canvasW := 1024
    canvasH := 1024
    sourceTexture := 0
    targetTextureA := 1
    targetTextureB := 2
    sourceLoaded := true
    gl := { store := fun n => if n = 0 then 10 else 0, screen := 0, boundFB := none, trace := [] }
    startPoint := (3, 4)
    endPoint := (7, 8)
    midPoints := [(5, 6)]
    isDragging := true
    isDirty := true
    needsCommit := false
    activeTool := some [fun _ x => x + 1, fun _ x => x + 1, fun _ x => x + 1]
    boundUniforms :=
      { resolution := (1024, 1024), start := (0, 0), endPt := (0, 0), mid := (0, 0)
        isDragging := 0, dragLength := 0 } }

theorem c2_preview_preserves_source_witness :
    cMulti.needsCommit = false ∧
    (render id cMulti).gl.store cMulti.sourceTexture = cMulti.gl.store cMulti.sourceTexture :=
  ⟨rfl, (c2_preview_preserves_source id cMulti rfl (by decide) (by decide)).2⟩

/-- Claim C1 (evaluation of the code at the failing input): running the
3-pass chain of cMulti with commit=true leaves the source slot (texture
0) holding its old image 10; the final pass output 13 = ((10+1)+1)+1 is
stranded in scratch texture 1 and is never swapped into the source
slot, contradicting the specified commit contract. -/
theorem c1_multipass_commit_leaves_source_stale :
    (runShaderPasses true cMulti).sourceTexture = 0 ∧
    (runShaderPasses true cMulti).gl.store 0 = 10 ∧
    (runShaderPasses true cMulti).gl.store 1 = 13 ∧
    ((10 : ℤ) ≠ 13) :=
  ⟨rfl, by decide, by decide, by decide⟩

/-- Claim C3 (evaluation of the code at the failing input): for the
3-pass tool of cMulti, a preview run shows 13 on the screen, but a
commit run leaves the source image holding 10, so commit and preview do
not apply the same transform for N>2 passes. -/
theorem c3_three_pass_commit_differs_from_preview :
    (runShaderPasses false cMulti).gl.screen = 13 ∧
    (runShaderPasses true cMulti).gl.store (runShaderPasses true cMulti).sourceTexture = 10 ∧
    ((10 : ℤ) ≠ 13) :=
  ⟨by decide, by decide, by decide⟩

/-! Claim C4. -/

theorem runProgram_screen_trace (prog : α → α) (src : Nat) (gl : GlState α) :
    (runProgram prog src (bindScreen gl)).trace = gl.trace ++ [(src, none)] := rfl

theorem runProgram_tex_trace (prog : α → α) (src t : Nat) (gl : GlState α) :
    (runProgram prog src (bindFBTexture t gl)).trace = gl.trace ++ [(src, some t)] := rfl

/-- The concrete uniform block used for closed evaluations. -/
def uW : Uniforms :=
  { resolution := (1024, 1024), start := (0, 0), endPt := (0, 0), mid := (0, 0)
    isDragging := 0, dragLength := 0 }

/-- The legacy TwoPointTool state used for the C4 counterexample. -/
def lcW : LegacyCtrl ℤ :=
  { sourceTexture := 0
    targetTexture := 1
    gl := { store := fun _ => 0, screen := 0, boundFB := none, trace := [] } }

/-- A two-pass program list with identity passes. -/
def legacyTwoPass : List (Uniforms → ℤ → ℤ) := [fun _ x => x, fun _ x => x]

/-- Claim C4 counterexample: in the legacy runShaderPasses of part_004,
a two-pass chain whose final destination is the target texture (as
onDragEnd invokes it on commit) issues, as its final pass, a draw call
that reads texture 1 while texture 1 is the framebuffer colour
attachment: the same texture is simultaneously the input sampler and
the render target, contradicting the claim for this pass chain. -/
theorem c4_legacy_two_pass_commit_self_draw :
    (legacyRunShaderPasses uW legacyTwoPass 0 (some 1) lcW).gl.trace
      = [(0, some 1), (1, some 1)] ∧
    ¬ noSelfDraw (legacyRunShaderPasses uW legacyTwoPass 0 (some 1) lcW).gl.trace := by
  refine ⟨rfl, ?_⟩
  intro h
  have hmem : ((1 : Nat), some (1 : Nat)) ∈
      (legacyRunShaderPasses uW legacyTwoPass 0 (some 1) lcW).gl.trace := by
    rw [show (legacyRunShaderPasses uW legacyTwoPass 0 (some 1) lcW).gl.trace
        = [(0, some 1), (1, some 1)] from rfl]
    simp
  exact (h (1, some 1) hmem 1 rfl) rfl

/-- Claim C4 (amended): in ToolController.runShaderPasses, for every
pass count and both preview and commit, no draw call ever has the same
texture bound as its input sampler and as the framebuffer colour
attachment, provided the three texture slots hold pairwise distinct
textures; the legacy part_004 chain violates this for two passes with a
texture destination (see the counterexample). -/
theorem c4_controller_no_self_draw (commit : Bool) (c : Ctrl α)
    (hA : c.sourceTexture ≠ c.targetTextureA)
    (hAB : c.targetTextureA ≠ c.targetTextureB)
    (htr : noSelfDraw c.gl.trace) :
    noSelfDraw (runShaderPasses commit c).gl.trace := by
  unfold runShaderPasses
  cases h : c.activeTool with
  | none => exact htr
  | some progs =>
    match progs with
    | [] =>
      simp only [runMultipleShaderPasses, h]
      exact runMultiAux_noSelfDraw _ _ _ _ _ hA hAB htr
    | [p] =>
      unfold runSingleShaderPass
      split_ifs
      · dsimp only
        rw [runProgram_screen_trace]
        exact noSelfDraw_append _ _ _ htr (by intro d hd; cases hd)
      · dsimp only
        rw [runProgram_tex_trace]
        exact noSelfDraw_append _ _ _ htr (by intro d hd; cases hd; exact hA)
    | [p0, p1] =>
      unfold runTwoShaderPasses
      split_ifs
      · dsimp only
        rw [runProgram_screen_trace, runProgram_tex_trace]
        apply noSelfDraw_append
        · exact noSelfDraw_append _ _ _ htr (by intro d hd; cases hd; exact hA)
        · intro d hd; cases hd
      · dsimp only
        rw [runProgram_tex_trace, runProgram_tex_trace]
        apply noSelfDraw_append
        · exact noSelfDraw_append _ _ _ htr (by intro d hd; cases hd; exact hA)
        · intro d hd; cases hd; exact hAB
    | p0 :: p1 :: p2 :: rest =>
      simp only [runMultipleShaderPasses, h]
      exact runMultiAux_noSelfDraw _ _ _ _ _ hA hAB htr

theorem c4_controller_no_self_draw_witness :
    noSelfDraw (runShaderPasses true cMulti).gl.trace :=
  c4_controller_no_self_draw true cMulti (by decide) (by decide)
    (by intro e he d hd; exact absurd he (List.not_mem_nil e))

/-- Claim C5: whenever both the start and end points equal the zero
sentinel point (0,0) and no commit is pending, a render frame (one that
is dirty, has an active tool and a loaded source texture) bypasses the
active tool passes entirely and blits the source texture directly to
the screen: the resulting state is exactly the old state with the dirty
flag cleared and a single passthrough draw of the source texture to the
default framebuffer; no other texture is read or written. -/
theorem c5_idle_fast_path (sqrtF : ℚ → ℚ) (c : Ctrl α) (t : List (Uniforms → α → α))
    (hTool : c.activeTool = some t)
    (hDirty : c.isDirty = true)
    (hLoaded : c.sourceLoaded = true)
    (hStart : c.startPoint = ((0 : ℚ), (0 : ℚ)))
    (hEnd : c.endPoint = ((0 : ℚ), (0 : ℚ)))
    (hCommit : c.needsCommit = false) :
    render sqrtF c =
      { c with
        isDirty := false
        gl := { c.gl with
          boundFB := none
          screen := c.gl.store c.sourceTexture
          trace := c.gl.trace ++ [(c.sourceTexture, none)] } } := by
  have hg : ¬(c.isDirty = false ∨ c.activeTool.isNone = true ∨ c.sourceLoaded = false) := by
    simp [hDirty, hTool, hLoaded]
  rw [render_eq_idle sqrtF c hg ⟨hStart, hEnd, hCommit⟩]
  rfl

/-- Concrete idle controller used to evaluate claim C5. -/
def cIdle : Ctrl ℤ :=
  { cMulti with
    startPoint := ((0 : ℚ), (0 : ℚ))
    endPoint := ((0 : ℚ), (0 : ℚ))
    isDragging := false }

theorem c5_idle_fast_path_witness :
    render id cIdle =
      { cIdle with
        isDirty := false
        gl := { cIdle.gl with
          boundFB := none
          screen := cIdle.gl.store cIdle.sourceTexture
          trace := cIdle.gl.trace ++ [(cIdle.sourceTexture, none)] } } :=
  c5_idle_fast_path id cIdle _ rfl rfl rfl rfl rfl rfl

/-! Claim C6. -/

theorem sqDist_nonneg (a b : Point) : 0 ≤ sqDist a b :=
  add_nonneg (mul_self_nonneg _) (mul_self_nonneg _)

/-- Below the one-pixel drag threshold the line tool shader is a
passthrough: the guard samples the texture at uv * resolution = the
fragment coordinate, so the output image equals the input image. -/
theorem lineToolShader_passthrough (sqrtF : ℚ → ℚ) (u : Uniforms) (img : QImage)
    (hguard : sqrtF (sqDist u.start u.endPt) < 1)
    (h1 : u.resolution.1 ≠ 0) (h2 : u.resolution.2 ≠ 0) :
    lineToolShader sqrtF u img = img := by
  funext p
  rw [lineToolShader]
  dsimp only
  rw [if_pos hguard, texSample]
  rw [show (p.1 / u.resolution.1 * u.resolution.1, p.2 / u.resolution.2 * u.resolution.2) = p by
    rw [div_mul_cancel₀ _ h1, div_mul_cancel₀ _ h2]]

theorem runShaderPasses_single (commit : Bool) (c : Ctrl α) (p : Uniforms → α → α)
    (h : c.activeTool = some [p]) :
    runShaderPasses commit c = runSingleShaderPass p commit c := by
  unfold runShaderPasses
  rw [h]

theorem runSingleShaderPass_commit (p : Uniforms → α → α) (c : Ctrl α) :
    runSingleShaderPass p true c =
      { c with
        gl := runProgram (p c.boundUniforms) c.sourceTexture (bindFBTexture c.targetTextureA c.gl)
        targetTextureA := c.sourceTexture
        sourceTexture := c.targetTextureA } := rfl

theorem renderPasses_needsCommit (sqrtF : ℚ → ℚ) (c : Ctrl α) :
    (renderPasses sqrtF c).needsCommit = c.needsCommit := by
  unfold renderPasses
  rw [runShaderPasses_needsCommit]
  exact (updateToolPoints_slots sqrtF _).2.2.2.1

theorem updateToolPoints_uniforms (sqrtF : ℚ → ℚ) (c : Ctrl α)
    (t : List (Uniforms → α → α)) (h : c.activeTool = some t) :
    (updateToolPoints sqrtF c).boundUniforms.start = c.startPoint ∧
    (updateToolPoints sqrtF c).boundUniforms.endPt = c.endPoint ∧
    (updateToolPoints sqrtF c).boundUniforms.resolution = (c.canvasW, c.canvasH) := by
  simp [updateToolPoints, h]

theorem runTwoShaderPasses_commit (p0 p1 : Uniforms → α → α) (c : Ctrl α) :
    runTwoShaderPasses p0 p1 true c =
      { c with
        gl := runProgram (p1 c.boundUniforms) c.targetTextureA
          (bindFBTexture c.targetTextureB
            (runProgram (p0 c.boundUniforms) c.sourceTexture
              (bindFBTexture c.targetTextureA c.gl)))
        sourceTexture := c.targetTextureB
        targetTextureB := c.sourceTexture } := rfl

/-- Claim C6: committing a zero-length drag (squared distance between
start and end below the one-pixel threshold) leaves the source image
bit-identical to its state before the commit, for every tool whose
shaders honour the per-tool passthrough contract: below the one-pixel
drag threshold each pass returns its input image unchanged (hpass,
stated for the uniform block the engine binds, whose resolution is the
canvas size).  The hypothesis on sqrtF states that the square root
reports a value below 1 exactly when its (nonnegative) argument is
below 1, which the exact square root satisfies.  The line tool shader
of line-gl.js satisfies hpass: see the witness. -/
theorem c6_zero_length_commit_preserves_source (sqrtF : ℚ → ℚ) (c : Ctrl α)
    (progs : List (Uniforms → α → α))
    (hTool : c.activeTool = some progs)
    (hDirty : c.isDirty = true)
    (hLoaded : c.sourceLoaded = true)
    (hCommit : c.needsCommit = true)
    (hA : c.sourceTexture ≠ c.targetTextureA)
    (hB : c.sourceTexture ≠ c.targetTextureB)
    (hZero : sqDist c.startPoint c.endPoint < 1)
    (hSqrt : ∀ q : ℚ, 0 ≤ q → (sqrtF q < 1 ↔ q < 1))
    (hpass : ∀ p ∈ progs, ∀ (u : Uniforms) (img : α),
      sqrtF (sqDist u.start u.endPt) < 1 → u.resolution = (c.canvasW, c.canvasH) →
        p u img = img) :
    (render sqrtF c).gl.store (render sqrtF c).sourceTexture
      = c.gl.store c.sourceTexture := by
  obtain ⟨cw, ch, srct, ta, tb, sl, gl, sp, ep, mp, idrag, idirty, nc, atool, bu⟩ := c
  dsimp only at hTool hDirty hLoaded hCommit hA hB hZero hpass ⊢
  subst hTool hDirty hLoaded hCommit
  have hguard : sqrtF (sqDist sp ep) < 1 := (hSqrt _ (sqDist_nonneg _ _)).mpr hZero
  rw [render, if_neg (by simp)]
  dsimp only
  have hni2 : ¬(sp = ((0 : ℚ), (0 : ℚ)) ∧ ep = ((0 : ℚ), (0 : ℚ)) ∧ true = false) := by simp
  rw [if_neg hni2]
  match progs, hpass with
  | [], hpass =>
    simp only [updateToolPoints, runShaderPasses, runMultipleShaderPasses, runMultiAux]
    rw [if_pos trivial]
  | [p0], hpass =>
    simp only [updateToolPoints, runShaderPasses, runSingleShaderPass_commit]
    rw [if_pos trivial]
    dsimp only
    rw [runProgram_tex_store_eq]
    exact hpass p0 (by simp) _ _ (by dsimp only; exact hguard) rfl
  | [p0, p1], hpass =>
    simp only [updateToolPoints, runShaderPasses, runTwoShaderPasses_commit]
    rw [if_pos trivial]
    dsimp only
    rw [runProgram_tex_store_eq, runProgram_tex_store_eq]
    rw [hpass p0 (by simp) _ _ (by dsimp only; exact hguard) rfl]
    exact hpass p1 (by simp) _ _ (by dsimp only; exact hguard) rfl
  | p0 :: p1 :: p2 :: rest, hpass =>
    simp only [updateToolPoints, runShaderPasses, runMultipleShaderPasses]
    rw [if_pos (by rw [runMultiAux_needsCommit])]
    dsimp only
    rw [runMultiAux_sourceTexture]
    exact runMultiAux_store _ _ _ _ _ _ hA hB

/-- Concrete line tool controller with a zero-length drag pending
commit, used to evaluate claim C6. -/
def cLine : Ctrl QImage :=
  { canvasW := 1024
    canvasH := 1024
    sourceTexture := 0
    targetTextureA := 1
    targetTextureB := 2
    sourceLoaded := true
    gl := { store := fun n => if n = 0 then (fun p => (p.1, p.2, 0, 1)) else (fun _ => (0, 0, 0, 1))
            screen := fun _ => (0, 0, 0, 1), boundFB := none, trace := [] }
    startPoint := (5, 5)
    endPoint := (5, 5)
    midPoints := []
    isDragging := false
    isDirty := true
    needsCommit := true
    activeTool := some (createLineTool id)
    boundUniforms := uW }

theorem c6_zero_length_commit_preserves_source_witness :
    sqDist cLine.startPoint cLine.endPoint < 1 ∧
    (render id cLine).gl.store (render id cLine).sourceTexture
      = cLine.gl.store cLine.sourceTexture :=
  ⟨by norm_num [sqDist, cLine],
    c6_zero_length_commit_preserves_source id cLine (createLineTool id) rfl rfl rfl rfl
      (by decide) (by decide)
      (by norm_num [sqDist, cLine]) (fun q _ => Iff.rfl)
      (by
        intro p hp u img hg hres
        have hpl : p = lineToolShader id := by simpa [createLineTool] using hp
        subst hpl
        exact lineToolShader_passthrough id u img hg
          (by rw [hres]; norm_num [cLine]) (by rw [hres]; norm_num [cLine]))⟩

/-! Claim C7: pivot selection. -/

/-- The spec-side quantity for claim C7: the squared perpendicular
distance from p to the line through a and b, written with the
cross-product formula.  Squaring is order-preserving on the nonnegative
distances, so the point of maximum perpendicular distance is exactly the
point of maximum squared perpendicular distance. -/
def specPerpDistSq (p a b : Point) : ℚ :=
  ((b.1 - a.1) * (p.2 - a.2) - (b.2 - a.2) * (p.1 - a.1)) *
    ((b.1 - a.1) * (p.2 - a.2) - (b.2 - a.2) * (p.1 - a.1)) / sqDist a b

set_option maxHeartbeats 1000000 in
theorem distanceToLine2_eq_perp (p a b : Point) (h : sqDist a b ≠ 0) :
    distanceToLine2 p a b = specPerpDistSq p a b := by
  have hab : (b.1 - a.1) * (b.1 - a.1) + (b.2 - a.2) * (b.2 - a.2) ≠ 0 := by
    intro hh
    apply h
    unfold sqDist
    linear_combination hh
  rw [sqDist] at h
  unfold distanceToLine2 specPerpDistSq sqDist
  dsimp only
  rw [if_neg hab]
  field_simp
  ring

theorem distanceToLine2_self (a b : Point) : distanceToLine2 a a b = 0 := by
  unfold distanceToLine2 sqDist
  dsimp only
  split_ifs <;> ring

/-- r is the earliest-inserted element of l attaining the maximum of f
over l: it occurs at an index before which every element has a strictly
smaller f value, and no element of l exceeds it. -/
def EarliestMax (f : Point → ℚ) (l : List Point) (r : Point) : Prop :=
  ∃ i : Nat, l[i]? = some r ∧ (∀ q ∈ l, f q ≤ f r) ∧
    (∀ j : Nat, j < i → ∀ q : Point, l[j]? = some q → f q < f r)

theorem em_step (f : Point → ℚ) (pre : List Point) (r p : Point)
    (h : EarliestMax f pre r) :
    EarliestMax f (pre ++ [p]) (if f r < f p then p else r) := by
  obtain ⟨i, hi, hmax, hlt⟩ := h
  have hilen : i < pre.length := (List.getElem?_eq_some.mp hi).1
  by_cases hc : f r < f p
  · rw [if_pos hc]
    refine ⟨pre.length, List.getElem?_concat_length pre p, ?_, ?_⟩
    · intro q hq
      rcases List.mem_append.mp hq with h1 | h2
      · exact le_of_lt (lt_of_le_of_lt (hmax q h1) hc)
      · have hqp : q = p := by simpa using h2
        subst hqp
        exact le_refl _
    · intro j hj q hq
      rw [List.getElem?_append_left hj] at hq
      exact lt_of_le_of_lt (hmax q (List.getElem?_mem hq)) hc
  · rw [if_neg hc]
    refine ⟨i, ?_, ?_, ?_⟩
    · rw [List.getElem?_append_left hilen]
      exact hi
    · intro q hq
      rcases List.mem_append.mp hq with h1 | h2
      · exact hmax q h1
      · have hqp : q = p := by simpa using h2
        subst hqp
        exact le_of_not_lt hc
    · intro j hj q hq
      rw [List.getElem?_append_left (lt_trans hj hilen)] at hq
      exact hlt j hj q hq

theorem farthestScan_go (s e : Point) :
    ∀ (l pre : List Point) (acc : Point × ℚ),
      acc.2 = distanceToLine2 acc.1 s e →
      EarliestMax (fun p => distanceToLine2 p s e) pre acc.1 →
      EarliestMax (fun p => distanceToLine2 p s e) (pre ++ l)
        (l.foldl (farthestStep s e) acc).1 ∧
      (l.foldl (farthestStep s e) acc).2
        = distanceToLine2 (l.foldl (farthestStep s e) acc).1 s e := by
  intro l
  induction l with
  | nil =>
    intro pre acc h1 h2
    simpa using ⟨h2, h1⟩
  | cons p rest ih =>
    intro pre acc h1 h2
    rw [List.foldl_cons]
    have hstep : EarliestMax (fun q => distanceToLine2 q s e) (pre ++ [p])
        (farthestStep s e acc p).1 ∧
        (farthestStep s e acc p).2
          = distanceToLine2 (farthestStep s e acc p).1 s e := by
      unfold farthestStep
      by_cases hc : acc.2 < distanceToLine2 p s e
      · rw [if_pos hc]
        rw [h1] at hc
        have hs := em_step (fun q => distanceToLine2 q s e) pre acc.1 p h2
        rw [if_pos hc] at hs
        exact ⟨hs, rfl⟩
      · rw [if_neg hc]
        rw [h1] at hc
        have hs := em_step (fun q => distanceToLine2 q s e) pre acc.1 p h2
        rw [if_neg hc] at hs
        exact ⟨hs, h1⟩
    have hrec := ih (pre ++ [p]) _ hstep.2 hstep.1
    rw [List.append_assoc] at hrec
    simpa using hrec

theorem selectMid_nil (s e : Point) : selectMid s e [] = s := by
  unfold selectMid farthestScan
  simp only [List.isEmpty_nil, if_pos, List.foldl_cons, List.foldl_nil]
  unfold farthestStep
  rw [distanceToLine2_self, if_neg (by norm_num)]

theorem selectMid_spec (s e : Point) (mids : List Point) :
    EarliestMax (fun p => distanceToLine2 p s e) (s :: mids) (selectMid s e mids) := by
  have hbase : EarliestMax (fun p => distanceToLine2 p s e) [s] s := by
    refine ⟨0, rfl, ?_, ?_⟩
    · intro q hq
      have : q = s := by simpa using hq
      subst this
      exact le_refl _
    · intro j hj q hq
      exact absurd hj (Nat.not_lt_zero j)
  cases mids with
  | nil =>
    rw [selectMid_nil]
    exact hbase
  | cons m ms =>
    have h0 : ((s, (0 : ℚ)) : Point × ℚ).2 = distanceToLine2 ((s, (0 : ℚ)) : Point × ℚ).1 s e := by
      simpa using (distanceToLine2_self s e).symm
    have := farthestScan_go s e (m :: ms) [s] (s, 0) h0 hbase
    unfold selectMid farthestScan
    simpa using this.1

/-- Claim C7: for every drag with start distinct from end, the pivot
(mid) point supplied to the shaders is the element of start :: midpoints
with the maximum perpendicular distance to the start-end line, with ties
resolved to the earliest-inserted point (strict-improvement,
left-to-right scan). -/
theorem c7_pivot_earliest_farthest (s e : Point) (mids : List Point)
    (h : sqDist s e ≠ 0) :
    EarliestMax (fun p => specPerpDistSq p s e) (s :: mids) (selectMid s e mids) := by
  obtain ⟨i, hi, hmax, hlt⟩ := selectMid_spec s e mids
  refine ⟨i, hi, ?_, ?_⟩
  · intro q hq
    have := hmax q hq
    dsimp only at this ⊢
    rw [← distanceToLine2_eq_perp q s e h, ← distanceToLine2_eq_perp _ s e h]
    exact this
  · intro j hj q hq
    have := hlt j hj q hq
    dsimp only at this ⊢
    rw [← distanceToLine2_eq_perp q s e h, ← distanceToLine2_eq_perp _ s e h]
    exact this

theorem c7_pivot_earliest_farthest_witness :
    sqDist ((0 : ℚ), (0 : ℚ)) ((10 : ℚ), (0 : ℚ)) ≠ 0 ∧
    EarliestMax (fun p => specPerpDistSq p ((0 : ℚ), (0 : ℚ)) ((10 : ℚ), (0 : ℚ)))
      ((((0 : ℚ), (0 : ℚ)) : Point) :: [((3 : ℚ), (1 : ℚ)), ((6 : ℚ), (1 : ℚ)), ((5 : ℚ), (2 : ℚ))])
      (selectMid ((0 : ℚ), (0 : ℚ)) ((10 : ℚ), (0 : ℚ))
        [((3 : ℚ), (1 : ℚ)), ((6 : ℚ), (1 : ℚ)), ((5 : ℚ), (2 : ℚ))]) :=
  ⟨by norm_num [sqDist],
    c7_pivot_earliest_farthest ((0 : ℚ), (0 : ℚ)) ((10 : ℚ), (0 : ℚ))
      [((3 : ℚ), (1 : ℚ)), ((6 : ℚ), (1 : ℚ)), ((5 : ℚ), (2 : ℚ))] (by norm_num [sqDist])⟩

/-! Claim C8: construction failure semantics. -/

theorem createProgramsAux_ok (env : GlCompileEnv) :
    ∀ (srcs : List σ) (i : Nat) (progs : List Nat),
      createProgramsAux env i srcs = .ok progs →
      ∀ j, j < srcs.length → env.fragOk (i + j) = true ∧ env.linkOk (i + j) = true := by
  intro srcs
  induction srcs with
  | nil =>
    intro i progs _ j hj
    exact absurd hj (Nat.not_lt_zero j)
  | cons a rest ih =>
    intro i progs hok j hj
    rw [createProgramsAux] at hok
    cases hf : env.fragOk i with
    | false =>
      rw [hf] at hok
      simp [compileShader, Except.isOk, Except.toBool] at hok
    | true =>
      rw [hf] at hok
      simp only [compileShader, if_true] at hok
      by_cases hl : env.linkOk i = true
      · rw [if_pos hl] at hok
        cases hrec : createProgramsAux env (i + 1) rest with
        | error m => rw [hrec] at hok; cases hok
        | ok ps =>
          cases j with
          | zero => exact ⟨by simpa using hf, by simpa using hl⟩
          | succ j2 =>
            have hj2 : j2 < rest.length := by
              simp only [List.length_cons] at hj
              omega
            have := ih (i + 1) ps hrec j2 hj2
            constructor
            · have h1 := this.1
              rwa [show i + 1 + j2 = i + (j2 + 1) by omega] at h1
            · have h2 := this.2
              rwa [show i + 1 + j2 = i + (j2 + 1) by omega] at h2
      · rw [if_neg hl] at hok
        cases hok

/-- Claim C8: a fragment-shader compilation failure or a program link
failure aborts tool construction with an error raised to the caller:
construction never completes unless every shader compiled and every
program linked.  The first conjunct covers ShaderTool.createShaders
(part_004, also the createShaders of two-point-tool.js, identical
logic); the second covers the older smudge-gl.js variant, whose link
failure returns null from createShaders and is then surfaced as the
Locations error before the constructor finishes.  The model is a single
construction attempt: there is no retry. -/
theorem c8_construction_fails_on_compile_or_link_error (env : GlCompileEnv)
    (srcs : List σ) :
    ((shaderToolCreate env srcs).isOk = true →
      srcs ≠ [] ∧ env.vertexOk = true ∧
        ∀ j, j < srcs.length → env.fragOk j = true ∧ env.linkOk j = true) ∧
    ((smudgeToolNew env).isOk = true →
      env.vertexOk = true ∧ env.fragOk 0 = true ∧ env.linkOk 0 = true) := by
  constructor
  · intro hok
    unfold shaderToolCreate at hok
    by_cases he : srcs.isEmpty = true
    · rw [if_pos he] at hok
      cases hok
    · rw [if_neg he] at hok
      refine ⟨by simpa using he, ?_, ?_⟩
      · cases hv : env.vertexOk with
        | false => rw [hv] at hok; simp [compileShader, Except.isOk, Except.toBool] at hok
        | true => rfl
      · cases hv : env.vertexOk with
        | false => rw [hv] at hok; simp [compileShader, Except.isOk, Except.toBool] at hok
        | true =>
          rw [hv] at hok
          simp only [compileShader, if_true] at hok
          cases hca : createProgramsAux env 0 srcs with
          | error m => rw [hca] at hok; cases hok
          | ok progs =>
            intro j hj
            have := createProgramsAux_ok env srcs 0 progs hca j hj
            simpa using this
  · intro hok
    unfold smudgeToolNew smudgeCreateShaders at hok
    cases hv : env.vertexOk with
    | false => rw [hv] at hok; simp [compileShader, Except.isOk, Except.toBool] at hok
    | true =>
      rw [hv] at hok
      simp only [compileShader, if_true] at hok
      cases hf : env.fragOk 0 with
      | false => rw [hf] at hok; simp [compileShader, Except.isOk, Except.toBool] at hok
      | true =>
        rw [hf] at hok
        simp only [compileShader, if_true] at hok
        cases hl : env.linkOk 0 with
        | false => rw [hl] at hok; simp [Except.isOk, Except.toBool] at hok
        | true => exact ⟨rfl, rfl, rfl⟩

/-- A GL driver environment where every compile and link succeeds. -/
def envOk : GlCompileEnv :=
  { vertexOk := true, fragOk := fun _ => true, linkOk := fun _ => true }

theorem c8_construction_fails_on_compile_or_link_error_witness :
    (shaderToolCreate envOk [()]).isOk = true ∧
    envOk.fragOk 0 = true ∧ envOk.linkOk 0 = true :=
  ⟨rfl,
    ((c8_construction_fails_on_compile_or_link_error envOk [()]).1 rfl).2.2 0 (by decide)⟩

/-! Claim C9: failed network call to the AI collaborator. -/

/-- The chat state used for the C9 counterexample: empty history, no
pending image. -/
def st9 : ChatState :=
  { history := [], pendingImage := none, ui := [], editorImage := 7 }

/-- Claim C9 counterexample: when the fetch rejects, sendMessage does
not leave the chat history unchanged: the user turn was already pushed
before the fetch and is not rolled back, so the history after the
failed call differs from the history before it. -/
theorem c9_failed_call_mutates_history :
    (sendMessage st9 "hi" NetOutcome.reject).1.history ≠ st9.history := by
  simp [sendMessage, st9, userPartsFor]

/-- Claim C9 (amended): when the network call fails (fetch rejects or
the response is not ok), the error is caught and the fallback message is
shown after the user message, no retry happens (exactly one fetch is
issued), and the editor image is untouched; however the chat history
retains the just-appended user turn (only the model reply is withheld)
and any pending image attachment has been consumed. -/
theorem c9_failure_fallback_no_retry (st : ChatState) (prompt : String) (net : NetOutcome)
    (h : ∀ r, net ≠ NetOutcome.ok r) :
    (sendMessage st prompt net).1.ui
        = st.ui ++ [("user", prompt), ("model", "Sorry, I encountered an error.")] ∧
    (sendMessage st prompt net).1.history
        = st.history ++ [ChatTurn.mk "user" (userPartsFor st.pendingImage prompt)] ∧
    (sendMessage st prompt net).1.editorImage = st.editorImage ∧
    (sendMessage st prompt net).1.pendingImage = none ∧
    (sendMessage st prompt net).2 = 1 := by
  cases net with
  | ok r => exact absurd rfl (h r)
  | reject => cases hp : st.pendingImage <;> simp [sendMessage, userPartsFor, hp]
  | notOk status => cases hp : st.pendingImage <;> simp [sendMessage, userPartsFor, hp]

/-- A chat state with prior history and a pending image attachment. -/
def st9b : ChatState :=
  { history := [ChatTurn.mk "user" [.text "earlier"]]
    pendingImage := some 3
    ui := [("user", "earlier")]
    editorImage := 5 }

theorem c9_failure_fallback_no_retry_witness :
    (sendMessage st9b "yo" NetOutcome.reject).1.editorImage = st9b.editorImage ∧
    (sendMessage st9b "yo" NetOutcome.reject).2 = 1 :=
  ⟨(c9_failure_fallback_no_retry st9b "yo" NetOutcome.reject
      (by intro r hr; cases hr)).2.2.1,
    (c9_failure_fallback_no_retry st9b "yo" NetOutcome.reject
      (by intro r hr; cases hr)).2.2.2.2⟩

/-! Claim C10: mouseleave / touchcancel end the gesture like a release. -/

/-- Claim C10: if the pointer leaves the canvas (mouseleave) or a touch
is cancelled (touchcancel) while a drag is in progress with an active
tool, the gesture ends exactly as on pointer release (mouseup /
touchend): dragging is cleared, the frame is marked dirty, a commit of
the in-progress effect is scheduled, and the gesture points are kept,
so the half-finished gesture is committed, never discarded. -/
theorem c10_leave_cancel_end_gesture (c : Ctrl α)
    (hTool : c.activeTool.isSome = true)
    (hDrag : c.isDragging = true) :
    handleEvent CanvasEvent.mouseleave c = handleEvent CanvasEvent.mouseup c ∧
    handleEvent CanvasEvent.touchcancel c = handleEvent CanvasEvent.touchend c ∧
    (handleEvent CanvasEvent.mouseleave c).isDragging = false ∧
    (handleEvent CanvasEvent.mouseleave c).isDirty = true ∧
    (handleEvent CanvasEvent.mouseleave c).needsCommit = true ∧
    (handleEvent CanvasEvent.touchcancel c).isDragging = false ∧
    (handleEvent CanvasEvent.touchcancel c).needsCommit = true ∧
    (handleEvent CanvasEvent.mouseleave c).startPoint = c.startPoint ∧
    (handleEvent CanvasEvent.mouseleave c).endPoint = c.endPoint ∧
    (handleEvent CanvasEvent.mouseleave c).midPoints = c.midPoints := by
  have hnone : c.activeTool.isNone = false := by
    cases h : c.activeTool with
    | none => rw [h] at hTool; cases hTool
    | some t => rfl
  have hno : ¬(c.activeTool.isNone = true ∨ c.isDragging = false) := by
    simp [hnone, hDrag]
  have hend : onDragEnd c
      = { c with isDragging := false, isDirty := true, needsCommit := true } := by
    rw [onDragEnd, if_neg hno]
  refine ⟨rfl, rfl, ?_, ?_, ?_, ?_, ?_, ?_, ?_, ?_⟩ <;> simp [handleEvent, hend]

theorem c10_leave_cancel_end_gesture_witness :
    (handleEvent CanvasEvent.mouseleave cMulti).needsCommit = true ∧
    (handleEvent CanvasEvent.mouseleave cMulti).isDragging = false :=
  ⟨(c10_leave_cancel_end_gesture cMulti rfl rfl).2.2.2.2.1,
    (c10_leave_cancel_end_gesture cMulti rfl rfl).2.2.1⟩

end LastDraw
